import Mathlib

/- Verification of the streaming texture pipeline of
   src/client/renderers/EGL/texture.c and the frame/session handling of
   src/client/src/main.c (LookingGlass client).

   The GL layer is modelled as a trace of events; machine integers are Nat with
   explicit mod arithmetic.  TEXTURE_COUNT is 3 throughout and is written as the
   literal 3, exactly as the C expands the macro. -/

namespace LookingGlass

/-- One GL-level or atomic-store action performed by the texture code, in
emission order. -/
inductive GLEvent where
  | bindPBO (slot : Nat)
  | unmapSlot (slot : Nat)
  | mapSlot (slot : Nat)
  | bindTexture (slot plane : Nat)
  | pixelStorei (rowLength : Nat)
  | texSubImage2D (width height offset : Nat)
  | texImage2D (slot plane : Nat)
  | fenceCreate (slot : Nat)
  | fenceDestroy (slot : Nat)
  | flush
  | clientWaitSync (slot : Nat)
  | storeW (v : Nat)
  | storeU (v : Nat)
  | storeS (v : Nat)
  | storeD (v : Nat)
  | memcpyToSlot (slot len : Nat)
  | fbReadToSlot (slot : Nat)
  | activeTexture (unit : Nat)
  | bindSampler (unit : Nat)
  | warnSlow
  | reallocPlanes (n : Nat)
deriving DecidableEq

/-- enum EGL_TexStatus. -/
inductive EGL_TexStatus where
  | OK
  | NOTREADY
  | ERROR
deriving DecidableEq

/-- The pixel formats handled by egl_texture_setup. -/
inductive EGL_PixelFormat where
  | BGRA
  | RGBA
  | RGBA10
  | YUV420
deriving DecidableEq

/-- Possible results of glClientWaitSync, an input of egl_texture_bind. -/
inductive GLWaitResult where
  | ALREADY_SIGNALED
  | CONDITION_SATISFIED
  | TIMEOUT_EXPIRED
  | WAIT_FAILED
  | INVALID_VALUE
deriving DecidableEq

/-- struct Tex: one of the three slots.  The mapped PBO pointer becomes a flag
plus the byte list currently in the buffer; the GLsync handle becomes a flag
(sync is nonzero). -/
structure Tex where
  hasPBO : Bool
  map : Bool
  content : List Nat
  sync : Bool
deriving DecidableEq

/-- union TexState: the four ring indices (w write, u upload, s schedule,
d display), each kept in 0..2 by mod-3 arithmetic. -/
structure TexState where
  w : Nat
  u : Nat
  s : Nat
  d : Nat
deriving DecidableEq

/-- struct EGL_Texture.  planes p is the row (cols, rows, rowStrideInPixels)
of the planes[3][3] array; GL object ids and GL format enums are not tracked. -/
structure EGL_Texture where
  pixFmt : EGL_PixelFormat
  width : Nat
  height : Nat
  stride : Nat
  bpp : Nat
  streaming : Bool
  ready : Bool
  planeCount : Nat
  planes : Nat → Nat × Nat × Nat
  offsets : Nat → Nat
  pboBufferSize : Nat
  state : TexState
  tex : Nat → Tex

/-- Concatenation of f 0 ++ f 1 ++ ... ++ f (n-1): the trace of a C for loop. -/
def evRange (n : Nat) (f : Nat → List GLEvent) : List GLEvent :=
  List.flatten ((List.range n).map f)

/-- State effect shared by egl_texture_map and egl_texture_unmap: set the map
flag of the three slots (map is modelled as always succeeding). -/
def mapAllTex (f : Nat → Tex) (b : Bool) : Nat → Tex :=
  fun i => if i < 3 then { f i with map := b } else f i

/-- State effect of the PBO re-creation loop in egl_texture_setup: each slot
gets a fresh buffer store (hasPBO set, contents discarded; the sync field is
not touched, as in the source). -/
def regenPBOs (f : Nat → Tex) : Nat → Tex :=
  fun i => if i < 3 then { f i with hasPBO := true, content := [] } else f i

/-- Trace of egl_texture_unmap: slots whose map pointer is null are skipped. -/
def unmapEvents (t : EGL_Texture) : List GLEvent :=
  evRange 3 (fun i =>
    if (t.tex i).map then [GLEvent.bindPBO i, GLEvent.unmapSlot i] else [])

/-- Trace of egl_texture_map: all three slots are (re)mapped persistently. -/
def mapEvents : List GLEvent :=
  evRange 3 (fun i => [GLEvent.bindPBO i, GLEvent.mapSlot i])

/-- egl_texture_init: the struct is malloced and zeroed. -/
def egl_texture_init : EGL_Texture where
  pixFmt := EGL_PixelFormat.BGRA
  width := 0
  height := 0
  stride := 0
  bpp := 0
  streaming := false
  ready := false
  planeCount := 0
  planes := fun _ => (0, 0, 0)
  offsets := fun _ => 0
  pboBufferSize := 0
  state := ⟨0, 0, 0, 0⟩
  tex := fun _ => { hasPBO := false, map := false, content := [], sync := false }

/-- Plane count chosen by the format switch in egl_texture_setup. -/
def planeCountOfFormat : EGL_PixelFormat → Nat
  | EGL_PixelFormat.YUV420 => 3
  | _ => 1

/-- egl_texture_setup.  Fills the per-format plane table, resets the state
word to zero, reallocates samplers and textures only when the new plane count
exceeds the stored one, recreates and remaps the PBOs.  The slot sync fields
are not touched, as in the source. -/
def egl_texture_setup (t : EGL_Texture) (pixFmt : EGL_PixelFormat)
    (width height stride : Nat) (streaming : Bool) : EGL_Texture × List GLEvent :=
  let planesNew : Nat → Nat × Nat × Nat :=
    match pixFmt with
    | EGL_PixelFormat.BGRA | EGL_PixelFormat.RGBA | EGL_PixelFormat.RGBA10 =>
        fun p => if p = 0 then (width, height, stride / 4) else t.planes p
    | EGL_PixelFormat.YUV420 =>
        fun p =>
          if p = 0 then (width, height, stride)
          else if p = 1 then (width / 2, height / 2, stride / 2)
          else if p = 2 then (width / 2, height / 2, stride / 2)
          else t.planes p
  let offsetsNew : Nat → Nat :=
    match pixFmt with
    | EGL_PixelFormat.BGRA | EGL_PixelFormat.RGBA | EGL_PixelFormat.RGBA10 =>
        fun p => if p = 0 then 0 else t.offsets p
    | EGL_PixelFormat.YUV420 =>
        fun p =>
          if p = 0 then 0
          else if p = 1 then stride * height
          else if p = 2 then stride * height + stride * height / 4
          else t.offsets p
  let pboSize : Nat :=
    match pixFmt with
    | EGL_PixelFormat.YUV420 =>
        (stride * height + stride * height / 4) + stride * height / 4
    | _ => height * stride
  let pc : Nat := planeCountOfFormat pixFmt
  let t1 : EGL_Texture :=
    { t with
      pixFmt := pixFmt, width := width, height := height, stride := stride,
      bpp := 4, streaming := streaming, ready := false,
      state := ⟨0, 0, 0, 0⟩,
      planes := planesNew, offsets := offsetsNew, pboBufferSize := pboSize,
      planeCount := if t.planeCount < pc then pc else t.planeCount }
  let t2 : EGL_Texture :=
    { t1 with tex := mapAllTex (regenPBOs (mapAllTex t1.tex false)) true }
  ( t2,
    (if t.planeCount < pc then [GLEvent.reallocPlanes pc] else [])
      ++ evRange (if streaming then 3 else 1)
           (fun i => evRange pc (fun p => [GLEvent.texImage2D i p]))
      ++ unmapEvents t ++ mapEvents )

/-- egl_warn_slow: one-shot warning; warnDone is the static flag.  Returns the
new flag value and the emitted trace. -/
def egl_warn_slow (warnDone : Bool) : Bool × List GLEvent :=
  (true, if warnDone then [] else [GLEvent.warnSlow])

/-- Result record for the two producer-side update entry points. -/
structure UpdRes where
  tex : EGL_Texture
  warnDone : Bool
  ret : Bool
  events : List GLEvent

/-- Trace of the non-streaming direct upload loop in egl_texture_update: for
each plane, GL_UNPACK_ROW_LENGTH is set to planes[p][0] and the pixel data is
read from buffer + offsets[p]. -/
def nonStreamUploadEvents (t : EGL_Texture) : List GLEvent :=
  evRange t.planeCount (fun p =>
    [GLEvent.bindTexture 0 p,
     GLEvent.pixelStorei (t.planes p).1,
     GLEvent.texSubImage2D (t.planes p).1 (t.planes p).2.1 (t.offsets p)])

/-- egl_texture_update. -/
def egl_texture_update (t : EGL_Texture) (buffer : List Nat) (warnDone : Bool) :
    UpdRes :=
  if t.streaming = true then
    if (t.state.w + 1) % 3 = t.state.u then
      { tex := t, warnDone := (egl_warn_slow warnDone).1, ret := true,
        events := (egl_warn_slow warnDone).2 }
    else
      { tex :=
          { t with
            tex := Function.update t.tex t.state.w
              { t.tex t.state.w with content := buffer.take t.pboBufferSize },
            state := { t.state with w := (t.state.w + 1) % 3 } },
        warnDone := warnDone, ret := true,
        events := [GLEvent.memcpyToSlot t.state.w t.pboBufferSize,
                   GLEvent.storeW ((t.state.w + 1) % 3)] }
  else
    { tex := t, warnDone := warnDone, ret := true,
      events := nonStreamUploadEvents t }

/-- Payload of a KVMFR frame (header plus pixel bytes). -/
structure FrameBuffer where
  data : List Nat
deriving DecidableEq

/-- Modelled from the spec: framebuffer_read (common/framebuffer.c is not
under src) copies, for each of height rows, width times bpp bytes from the
source frame at source row pitch, spinning on the progress counter before
each row; the wait does not change the bytes copied, so the model returns the
concatenation of the copied rows. -/
def framebuffer_read (frame : FrameBuffer)
    (dstpitch height width bpp pitch : Nat) : List Nat :=
  let _ := dstpitch
  List.flatten ((List.range height).map
    (fun r => (frame.data.drop (r * pitch)).take (width * bpp)))

/-- egl_texture_update_from_frame. -/
def egl_texture_update_from_frame (t : EGL_Texture) (frame : FrameBuffer)
    (warnDone : Bool) : UpdRes :=
  if t.streaming = false then
    { tex := t, warnDone := warnDone, ret := false, events := [] }
  else
    if (t.state.w + 1) % 3 = t.state.u then
      { tex := t, warnDone := (egl_warn_slow warnDone).1, ret := true,
        events := (egl_warn_slow warnDone).2 }
    else
      { tex :=
          { t with
            tex := Function.update t.tex t.state.w
              { t.tex t.state.w with
                content :=
                  framebuffer_read frame t.stride t.height t.width t.bpp t.stride },
            state := { t.state with w := (t.state.w + 1) % 3 } },
        warnDone := warnDone, ret := true,
        events := [GLEvent.fbReadToSlot t.state.w,
                   GLEvent.storeW ((t.state.w + 1) % 3)] }

/-- Result record for egl_texture_process and egl_texture_bind. -/
structure ProcRes where
  tex : EGL_Texture
  status : EGL_TexStatus
  events : List GLEvent

/-- Trace of the streaming upload loop in egl_texture_process: for each plane,
GL_UNPACK_ROW_LENGTH is set to planes[p][2] and glTexSubImage2D sources the
bound PBO at offsets[p]. -/
def streamUploadEvents (t : EGL_Texture) (slot : Nat) : List GLEvent :=
  evRange t.planeCount (fun p =>
    [GLEvent.bindTexture slot p,
     GLEvent.pixelStorei (t.planes p).2.2,
     GLEvent.texSubImage2D (t.planes p).1 (t.planes p).2.1 (t.offsets p)])

/-- egl_texture_process. -/
def egl_texture_process (t : EGL_Texture) : ProcRes :=
  if t.streaming = false then
    { tex := t, status := EGL_TexStatus.OK, events := [] }
  else
    if t.state.u = t.state.w ∨ (t.state.u + 1) % 3 = t.state.s
        ∨ (t.state.u + 1) % 3 = t.state.d then
      { tex := t,
        status := if t.ready then EGL_TexStatus.OK else EGL_TexStatus.NOTREADY,
        events := [] }
    else
      { tex :=
          { t with
            tex := mapAllTex
              (Function.update (mapAllTex t.tex false) t.state.u
                { (mapAllTex t.tex false) t.state.u with sync := true }) true,
            state := { t.state with u := (t.state.u + 1) % 3 },
            ready := true },
        status := EGL_TexStatus.OK,
        events :=
          unmapEvents t
            ++ [GLEvent.bindPBO t.state.u]
            ++ streamUploadEvents t t.state.u
            ++ [GLEvent.fenceCreate t.state.u, GLEvent.flush,
                GLEvent.storeU ((t.state.u + 1) % 3)]
            ++ mapEvents }

/-- Trace of the final texture binding loop shared by both modes of
egl_texture_bind. -/
def bindSlotEvents (planeCount slot : Nat) : List GLEvent :=
  evRange planeCount (fun i =>
    [GLEvent.activeTexture i, GLEvent.bindTexture slot i, GLEvent.bindSampler i])

/-- Tail of egl_texture_bind after the fence handling: advance d when it would
not cross the (already updated) s, then bind slot d on all texture units. -/
def bindFinish (t : EGL_Texture) (evs : List GLEvent) : ProcRes :=
  if t.state.d ≠ t.state.s ∧ (t.state.d + 1) % 3 ≠ t.state.s then
    { tex := { t with state := { t.state with d := (t.state.d + 1) % 3 } },
      status := EGL_TexStatus.OK,
      events := evs ++ [GLEvent.storeD ((t.state.d + 1) % 3)]
        ++ bindSlotEvents t.planeCount ((t.state.d + 1) % 3) }
  else
    { tex := t, status := EGL_TexStatus.OK,
      events := evs ++ bindSlotEvents t.planeCount t.state.d }

/-- egl_texture_bind.  waitRes is the result glClientWaitSync would return for
the pending fence of slot s (consulted only when that fence exists). -/
def egl_texture_bind (t : EGL_Texture) (waitRes : GLWaitResult) : ProcRes :=
  if t.streaming = true then
    if t.ready = false then
      { tex := t, status := EGL_TexStatus.NOTREADY, events := [] }
    else
      if (t.tex t.state.s).sync then
        match waitRes with
        | GLWaitResult.ALREADY_SIGNALED | GLWaitResult.CONDITION_SATISFIED =>
            bindFinish
              { t with
                tex := Function.update t.tex t.state.s
                  { t.tex t.state.s with sync := false },
                state := { t.state with s := (t.state.s + 1) % 3 } }
              [GLEvent.clientWaitSync t.state.s, GLEvent.fenceDestroy t.state.s,
               GLEvent.storeS ((t.state.s + 1) % 3)]
        | GLWaitResult.TIMEOUT_EXPIRED =>
            bindFinish t [GLEvent.clientWaitSync t.state.s]
        | GLWaitResult.WAIT_FAILED | GLWaitResult.INVALID_VALUE =>
            { tex :=
                { t with
                  tex := Function.update t.tex t.state.s
                    { t.tex t.state.s with sync := false } },
              status := EGL_TexStatus.ERROR,
              events := [GLEvent.clientWaitSync t.state.s,
                         GLEvent.fenceDestroy t.state.s] }
      else bindFinish t []
  else
    { tex := t, status := EGL_TexStatus.OK,
      events := bindSlotEvents t.planeCount t.state.d }

/-- egl_texture_count. -/
def egl_texture_count (t : EGL_Texture) : Nat :=
  t.planeCount

/-- Frame types dispatched by the switch in frameThread (main.c).  The KVMFR
header is not under src, so the unsupported types are collapsed into the
carrier constructor other. -/
inductive FrameType where
  | RGBA
  | BGRA
  | RGBA10
  | YUV420
  | other (tag : Nat)
deriving DecidableEq

/-- KVMFRFrame: the fields frameThread reads from a frame message. -/
structure KVMFRFrame where
  type : FrameType
  width : Nat
  height : Nat
  stride : Nat
  pitch : Nat
deriving DecidableEq

/-- The dataSize / bpp derivation switch of frameThread; none is the default
(unsupported) branch. -/
def frameDataSize (f : KVMFRFrame) : Option (Nat × Nat) :=
  match f.type with
  | FrameType.RGBA | FrameType.BGRA | FrameType.RGBA10 =>
      some (f.height * f.pitch, 32)
  | FrameType.YUV420 =>
      some (f.height * f.width + f.height * f.width / 4 * 2, 12)
  | FrameType.other _ => none

/-- Outcome of one iteration of the frameThread message loop. -/
inductive FrameMsgStep where
  | fatalUnsupported
  | renderFailed
  | delivered (dataSize bpp : Nat)
deriving DecidableEq

/-- Whether this outcome acknowledged the message with lgmpClientMessageDone. -/
def FrameMsgStep.acks : FrameMsgStep → Bool
  | FrameMsgStep.fatalUnsupported => true
  | FrameMsgStep.renderFailed => false
  | FrameMsgStep.delivered _ _ => true

/-- Whether this outcome breaks out of the frame loop. -/
def FrameMsgStep.breaks : FrameMsgStep → Bool
  | FrameMsgStep.fatalUnsupported => true
  | FrameMsgStep.renderFailed => true
  | FrameMsgStep.delivered _ _ => false

/-- The control flow of one frameThread loop iteration around the type switch:
unsupported type logs, acks and breaks; otherwise the frame is handed to
on_frame_event (its success is an input), then acked. -/
def frameThreadBody (f : KVMFRFrame) (onFrameEventOk : Bool) : FrameMsgStep :=
  match frameDataSize f with
  | none => FrameMsgStep.fatalUnsupported
  | some (ds, bpp) =>
      if onFrameEventOk then FrameMsgStep.delivered ds bpp
      else FrameMsgStep.renderFailed

/-- LGMP statuses distinguished by the client code; other stands for every
further status value. -/
inductive LGMP_STATUS where
  | OK
  | ERR_INVALID_SESSION
  | ERR_INVALID_MAGIC
  | ERR_NO_SUCH_QUEUE
  | ERR_QUEUE_EMPTY
  | other (tag : Nat)
deriving DecidableEq

/-- Reaction of the lgmpClientInit retry loop in lg_run to one status. -/
inductive InitStep where
  | proceed
  | retryWaitMs (ms : Nat)
  | terminate
deriving DecidableEq

/-- The status dispatch of the lgmpClientInit loop in lg_run:
SDL_WaitEventTimeout(NULL, 1000) then retry on INVALID_SESSION and
INVALID_MAGIC, break on OK, return -1 otherwise. -/
def lg_run_initStep : LGMP_STATUS → InitStep
  | LGMP_STATUS.OK => InitStep.proceed
  | LGMP_STATUS.ERR_INVALID_SESSION => InitStep.retryWaitMs 1000
  | LGMP_STATUS.ERR_INVALID_MAGIC => InitStep.retryWaitMs 1000
  | _ => InitStep.terminate

/-- Reaction of the frameThread subscribe loop to one status. -/
inductive SubscribeStep where
  | subscribed
  | retrySleepUs (us : Nat)
  | stopRunning
deriving DecidableEq

/-- The status dispatch of the lgmpClientSubscribe loop in frameThread:
usleep(1000) then retry on NO_SUCH_QUEUE, break on OK, set running false
otherwise. -/
def frameThread_subscribeStep : LGMP_STATUS → SubscribeStep
  | LGMP_STATUS.OK => SubscribeStep.subscribed
  | LGMP_STATUS.ERR_NO_SUCH_QUEUE => SubscribeStep.retrySleepUs 1000
  | _ => SubscribeStep.stopRunning

/-- Row lengths (GL_UNPACK_ROW_LENGTH values) set along a trace. -/
def rowLengths (evs : List GLEvent) : List Nat :=
  evs.filterMap (fun e =>
    match e with
    | GLEvent.pixelStorei rl => some rl
    | _ => none)

/-- Number of glTexSubImage2D calls in a trace. -/
def texSubCount (evs : List GLEvent) : Nat :=
  (evs.filterMap (fun e =>
    match e with
    | GLEvent.texSubImage2D a b c => some (a, b, c)
    | _ => none)).length

/-- Number of fences created along a trace. -/
def fenceCreateCount (evs : List GLEvent) : Nat :=
  (evs.filterMap (fun e =>
    match e with
    | GLEvent.fenceCreate i => some i
    | _ => none)).length

/-- Number of fences destroyed along a trace. -/
def fenceDestroyCount (evs : List GLEvent) : Nat :=
  (evs.filterMap (fun e =>
    match e with
    | GLEvent.fenceDestroy i => some i
    | _ => none)).length

/-- Number of glFlush calls in a trace. -/
def flushCount (evs : List GLEvent) : Nat :=
  (evs.filterMap (fun e =>
    match e with
    | GLEvent.flush => some 0
    | _ => none)).length

/-- Whether a trace contains the sampler and texture reallocation performed by
egl_texture_setup when the plane count grows. -/
def reallocOccurred (evs : List GLEvent) : Bool :=
  evs.any (fun e =>
    match e with
    | GLEvent.reallocPlanes _ => true
    | _ => false)

/-- All texture states reachable from t0 through the four streaming-era
operations of the texture (with arbitrary producer data and arbitrary fence
wait results). -/
inductive ReachTex (t0 : EGL_Texture) : EGL_Texture → Prop where
  | base : ReachTex t0 t0
  | update (t : EGL_Texture) (buf : List Nat) (wd : Bool) :
      ReachTex t0 t → ReachTex t0 (egl_texture_update t buf wd).tex
  | updateFromFrame (t : EGL_Texture) (fb : FrameBuffer) (wd : Bool) :
      ReachTex t0 t → ReachTex t0 (egl_texture_update_from_frame t fb wd).tex
  | process (t : EGL_Texture) :
      ReachTex t0 t → ReachTex t0 (egl_texture_process t).tex
  | bind (t : EGL_Texture) (r : GLWaitResult) :
      ReachTex t0 t → ReachTex t0 (egl_texture_bind t r).tex

/-- The no-crossing invariant: the four mod-3 indices are the projections of
monotone stage counters ordered D less-or-equal S, S le U, U le W (so no stage
ever overtakes the stage it chases), the producer is at most two slots ahead
of the uploader, the uploader at most two ahead of the display, and every
pending fence belongs to a slot in the in-flight window from S to U. -/
def TexInv (t : EGL_Texture) : Prop :=
  ∃ W U S D : Nat,
    t.state.w = W % 3 ∧ t.state.u = U % 3 ∧ t.state.s = S % 3 ∧
    t.state.d = D % 3 ∧
    D ≤ S ∧ S ≤ U ∧ U ≤ W ∧ W ≤ U + 2 ∧ U ≤ D + 2 ∧
    ∀ i : Nat, (t.tex i).sync = true → ∃ k, S ≤ k ∧ k < U ∧ k % 3 = i

end LookingGlass

namespace LookingGlass

/-- A small streaming BGRA texture right after setup (state zero, all slots
mapped, no fences). -/
def texBGRA : EGL_Texture :=
  (egl_texture_setup egl_texture_init EGL_PixelFormat.BGRA 4 4 16 true).1

/-- texBGRA after one producer update: w has advanced to 1. -/
def texBGRAw : EGL_Texture := (egl_texture_update texBGRA [] false).tex

/-- texBGRAw after one upload: u has advanced to 1, slot 0 holds a fence and
the texture is ready. -/
def texBGRAu : EGL_Texture := (egl_texture_process texBGRAw).tex

/-- texBGRAw after two producer updates: w is 2, one step behind u around the
ring, so a further update collides. -/
def texBGRAww : EGL_Texture := (egl_texture_update texBGRAw [] false).tex

/-- The YUV420 640 x 480 stride 640 streaming texture of the spec scenario. -/
def texYUV : EGL_Texture :=
  (egl_texture_setup egl_texture_init EGL_PixelFormat.YUV420 640 480 640 true).1

/-- texYUV after one producer update, so process has work to do. -/
def texYUVw : EGL_Texture := (egl_texture_update texYUV [] false).tex

/-- A non-streaming BGRA texture. -/
def texNS : EGL_Texture :=
  (egl_texture_setup egl_texture_init EGL_PixelFormat.BGRA 4 4 16 false).1


end LookingGlass

namespace LookingGlass

/-- mapAllTex changes only the map flag of a slot. -/
theorem sync_mapAllTex (f : Nat → Tex) (b : Bool) (i : Nat) :
    ((mapAllTex f b) i).sync = (f i).sync := by
  unfold mapAllTex
  by_cases h : i < 3 <;> simp [h]

/-- regenPBOs changes neither slot sync flag. -/
theorem sync_regenPBOs (f : Nat → Tex) (i : Nat) :
    ((regenPBOs f) i).sync = (f i).sync := by
  unfold regenPBOs
  by_cases h : i < 3 <;> simp [h]

/-- egl_texture_setup leaves every slot sync flag as it found it. -/
theorem sync_setup (t : EGL_Texture) (fmt : EGL_PixelFormat) (w h s : Nat)
    (b : Bool) (i : Nat) :
    (((egl_texture_setup t fmt w h s b).1).tex i).sync = (t.tex i).sync := by
  show ((mapAllTex (regenPBOs (mapAllTex t.tex false)) true) i).sync = (t.tex i).sync
  rw [sync_mapAllTex, sync_regenPBOs, sync_mapAllTex]

/-- Sync flags after the upload branch of egl_texture_process: the fence of
slot u is created, the others are untouched. -/
theorem sync_processTex (t : EGL_Texture) (i : Nat) :
    ((mapAllTex (Function.update (mapAllTex t.tex false) t.state.u
        { (mapAllTex t.tex false) t.state.u with sync := true }) true) i).sync
      = (if i = t.state.u then true else (t.tex i).sync) := by
  rw [sync_mapAllTex]
  by_cases h : i = t.state.u
  · subst h
    simp [Function.update]
  · simp [Function.update_apply, h, sync_mapAllTex]

/-- egl_texture_update leaves the texture untouched when it is non-streaming
or when the write index would collide with the upload index. -/
theorem update_noadvance (t : EGL_Texture) (buf : List Nat) (wd : Bool)
    (h : t.streaming = false ∨ (t.state.w + 1) % 3 = t.state.u) :
    (egl_texture_update t buf wd).tex = t := by
  rcases h with h | h
  · simp [egl_texture_update, h]
  · by_cases hstr : t.streaming = true
    · simp [egl_texture_update, hstr, h]
    · simp [egl_texture_update, hstr]

/-- The write branch of egl_texture_update: the state word gains w+1 mod 3
and no sync flag moves. -/
theorem update_advance_char (t : EGL_Texture) (buf : List Nat) (wd : Bool)
    (hstr : t.streaming = true) (hcol : ¬ (t.state.w + 1) % 3 = t.state.u) :
    (egl_texture_update t buf wd).tex.state
        = { t.state with w := (t.state.w + 1) % 3 } ∧
    ∀ i, ((egl_texture_update t buf wd).tex.tex i).sync = (t.tex i).sync := by
  simp only [egl_texture_update, hstr, if_true, hcol, if_false]
  refine ⟨by trivial, ?_⟩
  intro i
  by_cases hie : i = t.state.w
  · subst hie
    simp [Function.update]
  · simp [Function.update_apply, hie]

/-- egl_texture_update_from_frame leaves the texture untouched when it is
non-streaming or on collision. -/
theorem update_from_frame_noadvance (t : EGL_Texture) (fb : FrameBuffer)
    (wd : Bool)
    (h : t.streaming = false ∨ (t.state.w + 1) % 3 = t.state.u) :
    (egl_texture_update_from_frame t fb wd).tex = t := by
  rcases h with h | h
  · simp [egl_texture_update_from_frame, h]
  · by_cases hstr : t.streaming = false
    · simp [egl_texture_update_from_frame, hstr]
    · simp [egl_texture_update_from_frame, hstr, h]

/-- The write branch of egl_texture_update_from_frame. -/
theorem update_from_frame_advance_char (t : EGL_Texture) (fb : FrameBuffer)
    (wd : Bool) (hstr : ¬ t.streaming = false)
    (hcol : ¬ (t.state.w + 1) % 3 = t.state.u) :
    (egl_texture_update_from_frame t fb wd).tex.state
        = { t.state with w := (t.state.w + 1) % 3 } ∧
    ∀ i, ((egl_texture_update_from_frame t fb wd).tex.tex i).sync
        = (t.tex i).sync := by
  simp only [egl_texture_update_from_frame, hstr, if_true, hcol, if_false]
  refine ⟨by trivial, ?_⟩
  intro i
  by_cases hie : i = t.state.w
  · subst hie
    simp [Function.update]
  · simp [Function.update_apply, hie]

/-- egl_texture_process leaves the texture untouched when it is non-streaming
or any advance guard fails. -/
theorem process_noadvance (t : EGL_Texture)
    (h : t.streaming = false ∨ t.state.u = t.state.w
        ∨ (t.state.u + 1) % 3 = t.state.s ∨ (t.state.u + 1) % 3 = t.state.d) :
    (egl_texture_process t).tex = t := by
  rcases h with h | h
  · simp [egl_texture_process, h]
  · by_cases hstr : t.streaming = false
    · simp [egl_texture_process, hstr]
    · simp [egl_texture_process, hstr, h]

/-- The upload branch of egl_texture_process: u is published as u+1 mod 3,
ready is set, the fence of slot u appears and no other sync flag moves. -/
theorem process_advance_char (t : EGL_Texture) (hstr : ¬ t.streaming = false)
    (hg : ¬ (t.state.u = t.state.w ∨ (t.state.u + 1) % 3 = t.state.s
        ∨ (t.state.u + 1) % 3 = t.state.d)) :
    (egl_texture_process t).tex.state
        = { t.state with u := (t.state.u + 1) % 3 } ∧
    (egl_texture_process t).tex.ready = true ∧
    ∀ i, ((egl_texture_process t).tex.tex i).sync
        = (if i = t.state.u then true else (t.tex i).sync) := by
  simp only [egl_texture_process, hstr, if_false, hg]
  refine ⟨by trivial, by trivial, fun i => sync_processTex t i⟩

/-- bindFinish keeps w, u, s and the slots, and either keeps d or, exactly
under the non-crossing guard, advances it by one mod 3. -/
theorem bindFinish_char (t : EGL_Texture) (evs : List GLEvent) :
    ((bindFinish t evs).tex.state.w = t.state.w ∧
     (bindFinish t evs).tex.state.u = t.state.u ∧
     (bindFinish t evs).tex.state.s = t.state.s ∧
     (bindFinish t evs).tex.tex = t.tex) ∧
    ((bindFinish t evs).tex.state.d = t.state.d ∨
      ((t.state.d ≠ t.state.s ∧ (t.state.d + 1) % 3 ≠ t.state.s) ∧
        (bindFinish t evs).tex.state.d = (t.state.d + 1) % 3)) := by
  unfold bindFinish
  by_cases hg : t.state.d ≠ t.state.s ∧ (t.state.d + 1) % 3 ≠ t.state.s
  · simp [hg]
  · simp [hg]

/-- Unfolding of egl_texture_bind for a non-streaming texture. -/
theorem bind_nonstream (t : EGL_Texture) (r : GLWaitResult)
    (h : ¬ t.streaming = true) :
    egl_texture_bind t r =
      { tex := t, status := EGL_TexStatus.OK,
        events := bindSlotEvents t.planeCount t.state.d } := by
  simp [egl_texture_bind, h]

/-- Unfolding of egl_texture_bind for a streaming texture not yet ready. -/
theorem bind_notready (t : EGL_Texture) (r : GLWaitResult)
    (h1 : t.streaming = true) (h2 : t.ready = false) :
    egl_texture_bind t r =
      { tex := t, status := EGL_TexStatus.NOTREADY, events := [] } := by
  simp [egl_texture_bind, h1, h2]

/-- Unfolding of egl_texture_bind when slot s carries no fence. -/
theorem bind_nosync (t : EGL_Texture) (r : GLWaitResult)
    (h1 : t.streaming = true) (h2 : ¬ t.ready = false)
    (h3 : ¬ (t.tex t.state.s).sync = true) :
    egl_texture_bind t r = bindFinish t [] := by
  simp [egl_texture_bind, h1, h2, h3]

/-- Unfolding of egl_texture_bind when the fence wait times out. -/
theorem bind_timeout (t : EGL_Texture)
    (h1 : t.streaming = true) (h2 : ¬ t.ready = false)
    (h3 : (t.tex t.state.s).sync = true) :
    egl_texture_bind t GLWaitResult.TIMEOUT_EXPIRED
      = bindFinish t [GLEvent.clientWaitSync t.state.s] := by
  simp [egl_texture_bind, h1, h2, h3]

/-- Unfolding of egl_texture_bind when the fence wait succeeds: the fence of
slot s is deleted and s advances before the display logic runs. -/
theorem bind_signaled (t : EGL_Texture) (r : GLWaitResult)
    (h1 : t.streaming = true) (h2 : ¬ t.ready = false)
    (h3 : (t.tex t.state.s).sync = true)
    (hr : r = GLWaitResult.ALREADY_SIGNALED
        ∨ r = GLWaitResult.CONDITION_SATISFIED) :
    egl_texture_bind t r = bindFinish
      { t with
        tex := Function.update t.tex t.state.s
          { t.tex t.state.s with sync := false },
        state := { t.state with s := (t.state.s + 1) % 3 } }
      [GLEvent.clientWaitSync t.state.s, GLEvent.fenceDestroy t.state.s,
       GLEvent.storeS ((t.state.s + 1) % 3)] := by
  rcases hr with hr | hr <;> subst hr <;> simp [egl_texture_bind, h1, h2, h3]

/-- Unfolding of egl_texture_bind when the fence wait fails: the fence is
deleted, ERROR is returned, no index moves and nothing is bound. -/
theorem bind_waitfail (t : EGL_Texture) (r : GLWaitResult)
    (h1 : t.streaming = true) (h2 : ¬ t.ready = false)
    (h3 : (t.tex t.state.s).sync = true)
    (hr : r = GLWaitResult.WAIT_FAILED ∨ r = GLWaitResult.INVALID_VALUE) :
    egl_texture_bind t r =
      { tex :=
          { t with
            tex := Function.update t.tex t.state.s
              { t.tex t.state.s with sync := false } },
        status := EGL_TexStatus.ERROR,
        events := [GLEvent.clientWaitSync t.state.s,
                   GLEvent.fenceDestroy t.state.s] } := by
  rcases hr with hr | hr <;> subst hr <;> simp [egl_texture_bind, h1, h2, h3]

end LookingGlass

namespace LookingGlass

/-- egl_texture_update preserves the no-crossing invariant. -/
theorem texInv_update (t : EGL_Texture) (buf : List Nat) (wd : Bool)
    (h : TexInv t) : TexInv (egl_texture_update t buf wd).tex := by
  by_cases hstr : t.streaming = true
  · by_cases hcol : (t.state.w + 1) % 3 = t.state.u
    · rw [update_noadvance t buf wd (Or.inr hcol)]
      exact h
    · obtain ⟨W, U, S, D, hw, hu, hs, hd, hds, hsu, huw, hwu, hud, hsync⟩ := h
      obtain ⟨hst, hsy⟩ := update_advance_char t buf wd hstr hcol
      rw [hw, hu] at hcol
      refine ⟨W + 1, U, S, D, ?_, ?_, ?_, ?_, hds, hsu, by omega, by omega,
        hud, ?_⟩
      · rw [hst]
        show (t.state.w + 1) % 3 = (W + 1) % 3
        omega
      · rw [hst]
        exact hu
      · rw [hst]
        exact hs
      · rw [hst]
        exact hd
      · intro i hi
        rw [hsy i] at hi
        exact hsync i hi
  · rw [update_noadvance t buf wd (Or.inl (by revert hstr; cases t.streaming <;> simp))]
    exact h

/-- egl_texture_update_from_frame preserves the no-crossing invariant. -/
theorem texInv_update_from_frame (t : EGL_Texture) (fb : FrameBuffer)
    (wd : Bool) (h : TexInv t) :
    TexInv (egl_texture_update_from_frame t fb wd).tex := by
  by_cases hstr : t.streaming = false
  · rw [update_from_frame_noadvance t fb wd (Or.inl hstr)]
    exact h
  · by_cases hcol : (t.state.w + 1) % 3 = t.state.u
    · rw [update_from_frame_noadvance t fb wd (Or.inr hcol)]
      exact h
    · obtain ⟨W, U, S, D, hw, hu, hs, hd, hds, hsu, huw, hwu, hud, hsync⟩ := h
      obtain ⟨hst, hsy⟩ := update_from_frame_advance_char t fb wd hstr hcol
      rw [hw, hu] at hcol
      refine ⟨W + 1, U, S, D, ?_, ?_, ?_, ?_, hds, hsu, by omega, by omega,
        hud, ?_⟩
      · rw [hst]
        show (t.state.w + 1) % 3 = (W + 1) % 3
        omega
      · rw [hst]
        exact hu
      · rw [hst]
        exact hs
      · rw [hst]
        exact hd
      · intro i hi
        rw [hsy i] at hi
        exact hsync i hi

/-- egl_texture_process preserves the no-crossing invariant. -/
theorem texInv_process (t : EGL_Texture) (h : TexInv t) :
    TexInv (egl_texture_process t).tex := by
  by_cases hstr : t.streaming = false
  · rw [process_noadvance t (Or.inl hstr)]
    exact h
  · by_cases hg : t.state.u = t.state.w ∨ (t.state.u + 1) % 3 = t.state.s
        ∨ (t.state.u + 1) % 3 = t.state.d
    · rw [process_noadvance t (Or.inr hg)]
      exact h
    · obtain ⟨W, U, S, D, hw, hu, hs, hd, hds, hsu, huw, hwu, hud, hsync⟩ := h
      obtain ⟨hst, hrd, hsy⟩ := process_advance_char t hstr hg
      push_neg at hg
      obtain ⟨g1, g2, g3⟩ := hg
      rw [hu, hw] at g1
      rw [hu, hs] at g2
      rw [hu, hd] at g3
      refine ⟨W, U + 1, S, D, ?_, ?_, ?_, ?_, hds, by omega, by omega,
        by omega, by omega, ?_⟩
      · rw [hst]
        exact hw
      · rw [hst]
        show (t.state.u + 1) % 3 = (U + 1) % 3
        omega
      · rw [hst]
        exact hs
      · rw [hst]
        exact hd
      · intro i hi
        rw [hsy i] at hi
        by_cases hie : i = t.state.u
        · refine ⟨U, hsu, by omega, ?_⟩
          rw [hu] at hie
          omega
        · simp only [hie, if_false] at hi
          obtain ⟨k, hk1, hk2, hk3⟩ := hsync i hi
          exact ⟨k, hk1, by omega, hk3⟩

/-- bindFinish preserves the no-crossing invariant. -/
theorem texInv_bindFinish (t : EGL_Texture) (evs : List GLEvent)
    (h : TexInv t) : TexInv (bindFinish t evs).tex := by
  obtain ⟨W, U, S, D, hw, hu, hs, hd, hds, hsu, huw, hwu, hud, hsync⟩ := h
  obtain ⟨⟨bw, bu, bs, btex⟩, hcase⟩ := bindFinish_char t evs
  rcases hcase with hsame | ⟨⟨g1, g2⟩, hadv⟩
  · refine ⟨W, U, S, D, ?_, ?_, ?_, ?_, hds, hsu, huw, hwu, hud, ?_⟩
    · rw [bw]; exact hw
    · rw [bu]; exact hu
    · rw [bs]; exact hs
    · rw [hsame]; exact hd
    · intro i hi
      rw [btex] at hi
      exact hsync i hi
  · rw [hd, hs] at g1 g2
    refine ⟨W, U, S, D + 1, ?_, ?_, ?_, ?_, by omega, hsu, huw, hwu,
      by omega, ?_⟩
    · rw [bw]; exact hw
    · rw [bu]; exact hu
    · rw [bs]; exact hs
    · rw [hadv, hd]; omega
    · intro i hi
      rw [btex] at hi
      exact hsync i hi

/-- The signaled branch of egl_texture_bind preserves the no-crossing
invariant: s may advance only because slot s held a fence, which the sync
part of the invariant places strictly below u. -/
theorem texInv_bind_signaled (t : EGL_Texture) (h : TexInv t)
    (hsy : (t.tex t.state.s).sync = true) :
    TexInv
      { t with
        tex := Function.update t.tex t.state.s
          { t.tex t.state.s with sync := false },
        state := { t.state with s := (t.state.s + 1) % 3 } } := by
  obtain ⟨W, U, S, D, hw, hu, hs, hd, hds, hsu, huw, hwu, hud, hsync⟩ := h
  obtain ⟨k, hk1, hk2, hk3⟩ := hsync t.state.s hsy
  rw [hs] at hk3
  have hSU : S < U := by omega
  refine ⟨W, U, S + 1, D, hw, hu, ?_, hd, by omega, by omega, huw, hwu,
    hud, ?_⟩
  · show (t.state.s + 1) % 3 = (S + 1) % 3
    omega
  · intro i hi
    dsimp only at hi
    by_cases hie : i = t.state.s
    · subst hie
      simp [Function.update] at hi
    · rw [show (Function.update t.tex t.state.s
          { t.tex t.state.s with sync := false }) i = t.tex i by
            simp [Function.update_apply, hie]] at hi
      obtain ⟨m, hm1, hm2, hm3⟩ := hsync i hi
      rw [hs] at hie
      refine ⟨m, ?_, hm2, hm3⟩
      omega

/-- The failed-wait branch of egl_texture_bind preserves the no-crossing
invariant: it only clears a sync flag. -/
theorem texInv_bind_waitfail (t : EGL_Texture) (h : TexInv t) :
    TexInv
      { t with
        tex := Function.update t.tex t.state.s
          { t.tex t.state.s with sync := false } } := by
  obtain ⟨W, U, S, D, hw, hu, hs, hd, hds, hsu, huw, hwu, hud, hsync⟩ := h
  refine ⟨W, U, S, D, hw, hu, hs, hd, hds, hsu, huw, hwu, hud, ?_⟩
  intro i hi
  dsimp only at hi
  by_cases hie : i = t.state.s
  · subst hie
    simp [Function.update] at hi
  · rw [show (Function.update t.tex t.state.s
        { t.tex t.state.s with sync := false }) i = t.tex i by
          simp [Function.update_apply, hie]] at hi
    exact hsync i hi

/-- egl_texture_bind preserves the no-crossing invariant. -/
theorem texInv_bind (t : EGL_Texture) (r : GLWaitResult) (h : TexInv t) :
    TexInv (egl_texture_bind t r).tex := by
  by_cases h1 : t.streaming = true
  · by_cases h2 : t.ready = false
    · rw [bind_notready t r h1 h2]
      exact h
    · by_cases h3 : (t.tex t.state.s).sync = true
      · cases r with
        | ALREADY_SIGNALED =>
            rw [bind_signaled t _ h1 h2 h3 (Or.inl rfl)]
            exact texInv_bindFinish _ _ (texInv_bind_signaled t h h3)
        | CONDITION_SATISFIED =>
            rw [bind_signaled t _ h1 h2 h3 (Or.inr rfl)]
            exact texInv_bindFinish _ _ (texInv_bind_signaled t h h3)
        | TIMEOUT_EXPIRED =>
            rw [bind_timeout t h1 h2 h3]
            exact texInv_bindFinish _ _ h
        | WAIT_FAILED =>
            rw [bind_waitfail t _ h1 h2 h3 (Or.inl rfl)]
            exact texInv_bind_waitfail t h
        | INVALID_VALUE =>
            rw [bind_waitfail t _ h1 h2 h3 (Or.inr rfl)]
            exact texInv_bind_waitfail t h
      · rw [bind_nosync t r h1 h2 h3]
        exact texInv_bindFinish _ _ h
  · rw [bind_nonstream t r h1]
    exact h

/-- egl_texture_bind advances d only under the guard of bindFinish, read
against the schedule index the call decided with (which is also the schedule
index it returns). -/
theorem bind_d_guard (t : EGL_Texture) (r : GLWaitResult)
    (hadv : (egl_texture_bind t r).tex.state.d ≠ t.state.d) :
    t.state.d ≠ (egl_texture_bind t r).tex.state.s ∧
    (t.state.d + 1) % 3 ≠ (egl_texture_bind t r).tex.state.s := by
  by_cases h1 : t.streaming = true
  · by_cases h2 : t.ready = false
    · rw [bind_notready t r h1 h2] at hadv ⊢
      exact absurd rfl hadv
    · by_cases h3 : (t.tex t.state.s).sync = true
      · have hsig : r = GLWaitResult.ALREADY_SIGNALED
            ∨ r = GLWaitResult.CONDITION_SATISFIED
            ∨ r = GLWaitResult.TIMEOUT_EXPIRED
            ∨ r = GLWaitResult.WAIT_FAILED
            ∨ r = GLWaitResult.INVALID_VALUE := by
          cases r
          · exact Or.inl rfl
          · exact Or.inr (Or.inl rfl)
          · exact Or.inr (Or.inr (Or.inl rfl))
          · exact Or.inr (Or.inr (Or.inr (Or.inl rfl)))
          · exact Or.inr (Or.inr (Or.inr (Or.inr rfl)))
        rcases hsig with hr | hr | hr | hr | hr
        · rw [bind_signaled t r h1 h2 h3 (Or.inl hr)] at hadv ⊢
          obtain ⟨⟨bw, bu, bs, btex⟩, hcase⟩ := bindFinish_char
            { t with
              tex := Function.update t.tex t.state.s
                { t.tex t.state.s with sync := false },
              state := { t.state with s := (t.state.s + 1) % 3 } }
            [GLEvent.clientWaitSync t.state.s, GLEvent.fenceDestroy t.state.s,
             GLEvent.storeS ((t.state.s + 1) % 3)]
          rw [bs]
          rcases hcase with hsame | ⟨⟨g1, g2⟩, _⟩
          · exact absurd hsame hadv
          · exact ⟨g1, g2⟩
        · rw [bind_signaled t r h1 h2 h3 (Or.inr hr)] at hadv ⊢
          obtain ⟨⟨bw, bu, bs, btex⟩, hcase⟩ := bindFinish_char
            { t with
              tex := Function.update t.tex t.state.s
                { t.tex t.state.s with sync := false },
              state := { t.state with s := (t.state.s + 1) % 3 } }
            [GLEvent.clientWaitSync t.state.s, GLEvent.fenceDestroy t.state.s,
             GLEvent.storeS ((t.state.s + 1) % 3)]
          rw [bs]
          rcases hcase with hsame | ⟨⟨g1, g2⟩, _⟩
          · exact absurd hsame hadv
          · exact ⟨g1, g2⟩
        · subst hr
          rw [bind_timeout t h1 h2 h3] at hadv ⊢
          obtain ⟨⟨bw, bu, bs, btex⟩, hcase⟩ :=
            bindFinish_char t [GLEvent.clientWaitSync t.state.s]
          rw [bs]
          rcases hcase with hsame | ⟨⟨g1, g2⟩, _⟩
          · exact absurd hsame hadv
          · exact ⟨g1, g2⟩
        · rw [bind_waitfail t r h1 h2 h3 (Or.inl hr)] at hadv ⊢
          exact absurd rfl hadv
        · rw [bind_waitfail t r h1 h2 h3 (Or.inr hr)] at hadv ⊢
          exact absurd rfl hadv
      · rw [bind_nosync t r h1 h2 h3] at hadv ⊢
        obtain ⟨⟨bw, bu, bs, btex⟩, hcase⟩ := bindFinish_char t []
        rw [bs]
        rcases hcase with hsame | ⟨⟨g1, g2⟩, _⟩
        · exact absurd hsame hadv
        · exact ⟨g1, g2⟩
  · rw [bind_nonstream t r h1] at hadv ⊢
    exact absurd rfl hadv

/-- C1: the four-index state word keeps its ring ordering under every
operation: egl_texture_process advances u only when u differs from w and
(u+1) mod 3 differs from s and from d; egl_texture_bind advances d by one
only when d differs from the schedule index it decided with (the s it
returns) and (d+1) mod 3 differs from it as well; and every texture reachable
from the zeroed state set up by egl_texture_setup (whose slots carry no
fence) satisfies TexInv, so its indices are projections of stage counters
with D le S le U le W: no stage ever crosses the stage it chases. -/
theorem c1_ring_never_crosses :
    (∀ t : EGL_Texture,
      (egl_texture_process t).tex.state.u ≠ t.state.u →
      t.state.u ≠ t.state.w ∧ (t.state.u + 1) % 3 ≠ t.state.s ∧
        (t.state.u + 1) % 3 ≠ t.state.d) ∧
    (∀ (t : EGL_Texture) (r : GLWaitResult),
      (egl_texture_bind t r).tex.state.d ≠ t.state.d →
      t.state.d ≠ (egl_texture_bind t r).tex.state.s ∧
        (t.state.d + 1) % 3 ≠ (egl_texture_bind t r).tex.state.s) ∧
    (∀ t0 t : EGL_Texture,
      t0.state = ⟨0, 0, 0, 0⟩ →
      (∀ i, (t0.tex i).sync = false) →
      ReachTex t0 t → TexInv t) := by
  refine ⟨?_, ?_, ?_⟩
  · intro t hadv
    by_cases hstr : t.streaming = false
    · rw [process_noadvance t (Or.inl hstr)] at hadv
      exact absurd rfl hadv
    · by_cases hg : t.state.u = t.state.w ∨ (t.state.u + 1) % 3 = t.state.s
          ∨ (t.state.u + 1) % 3 = t.state.d
      · rw [process_noadvance t (Or.inr hg)] at hadv
        exact absurd rfl hadv
      · push_neg at hg
        exact hg
  · intro t r hadv
    exact bind_d_guard t r hadv
  · intro t0 t h0 hsync0 hr
    induction hr with
    | base =>
        refine ⟨0, 0, 0, 0, ?_, ?_, ?_, ?_, Nat.le_refl 0, Nat.le_refl 0,
          Nat.le_refl 0, by omega, by omega, ?_⟩
        · rw [h0]
        · rw [h0]
        · rw [h0]
        · rw [h0]
        · intro i hi
          rw [hsync0 i] at hi
          exact absurd hi (by simp)
    | update t buf wd _ ih => exact texInv_update t buf wd ih
    | updateFromFrame t fb wd _ ih => exact texInv_update_from_frame t fb wd ih
    | process t _ ih => exact texInv_process t ih
    | bind t r _ ih => exact texInv_bind t r ih

/-- Witness for C1: the invariant holds at the freshly set-up streaming BGRA
texture, reached in zero steps. -/
theorem c1_witness : TexInv texBGRA := by
  refine c1_ring_never_crosses.2.2 texBGRA texBGRA rfl ?_ ReachTex.base
  intro i
  show ((egl_texture_setup egl_texture_init EGL_PixelFormat.BGRA 4 4 16
      true).1.tex i).sync = false
  rw [sync_setup]
  rfl

/-- C2: on a streaming texture, if (w+1) mod 3 equals u, both update entry
points emit the one-shot slow warning (only when it has not fired before),
write nothing to any slot, leave the whole texture - in particular w -
unchanged, and return true; otherwise they copy the producer bytes into the
mapped buffer of slot w and then publish w = (w+1) mod 3 (the release
ordering of the publish is a memory-model fact outside this sequential
model), touching no other index. -/
theorem c2_update_drop_or_publish :
    ∀ (t : EGL_Texture) (buf : List Nat) (fb : FrameBuffer) (wd : Bool),
      t.streaming = true →
      ( ((t.state.w + 1) % 3 = t.state.u →
          egl_texture_update t buf wd =
            { tex := t, warnDone := true, ret := true,
              events := if wd then [] else [GLEvent.warnSlow] } ∧
          egl_texture_update_from_frame t fb wd =
            { tex := t, warnDone := true, ret := true,
              events := if wd then [] else [GLEvent.warnSlow] }) ∧
        ((t.state.w + 1) % 3 ≠ t.state.u →
          ((egl_texture_update t buf wd).tex.tex t.state.w).content
              = buf.take t.pboBufferSize ∧
          (egl_texture_update t buf wd).tex.state
              = { t.state with w := (t.state.w + 1) % 3 } ∧
          (egl_texture_update t buf wd).ret = true ∧
          ((egl_texture_update_from_frame t fb wd).tex.tex t.state.w).content
              = framebuffer_read fb t.stride t.height t.width t.bpp t.stride ∧
          (egl_texture_update_from_frame t fb wd).tex.state
              = { t.state with w := (t.state.w + 1) % 3 } ∧
          (egl_texture_update_from_frame t fb wd).ret = true) ) := by
  intro t buf fb wd hstr
  have hstr2 : ¬ t.streaming = false := by
    rw [hstr]
    simp
  constructor
  · intro hcol
    constructor
    · simp [egl_texture_update, hstr, hcol, egl_warn_slow]
    · simp [egl_texture_update_from_frame, hstr2, hcol, egl_warn_slow]
  · intro hcol
    refine ⟨?_, (update_advance_char t buf wd hstr hcol).1, ?_, ?_,
      (update_from_frame_advance_char t fb wd hstr2 hcol).1, ?_⟩
    · simp [egl_texture_update, hstr, hcol, Function.update]
    · simp [egl_texture_update, hstr, hcol]
    · simp [egl_texture_update_from_frame, hstr2, hcol, Function.update]
    · simp [egl_texture_update_from_frame, hstr2, hcol]

/-- Witness for C2: the collision state texBGRAww drops with the slow warning
and the fresh texBGRA publishes w = 1. -/
theorem c2_witness :
    egl_texture_update texBGRAww [] false =
      { tex := texBGRAww, warnDone := true, ret := true,
        events := [GLEvent.warnSlow] } ∧
    (egl_texture_update texBGRA [] false).tex.state.w = 1 := by
  have h1 := (c2_update_drop_or_publish texBGRAww [] ⟨[]⟩ false
    (by decide)).1 (by decide)
  have h2 := (c2_update_drop_or_publish texBGRA [] ⟨[]⟩ false
    (by decide)).2 (by decide)
  refine ⟨by simpa using h1.1, ?_⟩
  rw [h2.2.1]
  decide

/-- evRange unrolls one loop iteration at the end. -/
theorem evRange_succ (n : Nat) (f : Nat → List GLEvent) :
    evRange (n + 1) f = evRange n f ++ f n := by
  unfold evRange
  rw [List.range_succ, List.map_append, List.flatten_append]
  simp

/-- A filterMap that drops every event of every loop body drops the whole
loop trace. -/
theorem filterMap_evRange_nil {α : Type} (g : GLEvent → Option α) (n : Nat)
    (f : Nat → List GLEvent) (h : ∀ p, (f p).filterMap g = []) :
    (evRange n f).filterMap g = [] := by
  induction n with
  | zero => rfl
  | succ m ih =>
      rw [evRange_succ, List.filterMap_append, ih, h m]
      rfl

/-- rowLengths distributes over trace concatenation. -/
theorem rowLengths_append (a b : List GLEvent) :
    rowLengths (a ++ b) = rowLengths a ++ rowLengths b := by
  simp [rowLengths, List.filterMap_append]

/-- The row lengths of a loop whose body sets exactly one row length. -/
theorem rowLengths_evRange (n : Nat) (f : Nat → List GLEvent) (g : Nat → Nat)
    (h : ∀ p, rowLengths (f p) = [g p]) :
    rowLengths (evRange n f) = (List.range n).map g := by
  induction n with
  | zero => rfl
  | succ m ih =>
      rw [evRange_succ, rowLengths_append, ih, h m, List.range_succ,
        List.map_append]
      rfl

/-- fenceCreateCount distributes over trace concatenation. -/
theorem fenceCreateCount_append (a b : List GLEvent) :
    fenceCreateCount (a ++ b) = fenceCreateCount a + fenceCreateCount b := by
  simp [fenceCreateCount, List.filterMap_append]

/-- flushCount distributes over trace concatenation. -/
theorem flushCount_append (a b : List GLEvent) :
    flushCount (a ++ b) = flushCount a + flushCount b := by
  simp [flushCount, List.filterMap_append]

/-- fenceDestroyCount distributes over trace concatenation. -/
theorem fenceDestroyCount_append (a b : List GLEvent) :
    fenceDestroyCount (a ++ b) = fenceDestroyCount a + fenceDestroyCount b := by
  simp [fenceDestroyCount, List.filterMap_append]

/-- The upload loop creates no fence. -/
theorem fenceCreateCount_streamUpload (t : EGL_Texture) (slot : Nat) :
    fenceCreateCount (streamUploadEvents t slot) = 0 := by
  unfold fenceCreateCount streamUploadEvents
  rw [filterMap_evRange_nil]
  · rfl
  · intro p
    rfl

/-- The upload loop emits no flush. -/
theorem flushCount_streamUpload (t : EGL_Texture) (slot : Nat) :
    flushCount (streamUploadEvents t slot) = 0 := by
  unfold flushCount streamUploadEvents
  rw [filterMap_evRange_nil]
  · rfl
  · intro p
    rfl

/-- The unmap loop creates no fence. -/
theorem fenceCreateCount_unmapEvents (t : EGL_Texture) :
    fenceCreateCount (unmapEvents t) = 0 := by
  unfold fenceCreateCount unmapEvents
  rw [filterMap_evRange_nil]
  · rfl
  · intro p
    by_cases hm : (t.tex p).map <;> simp [hm]

/-- The unmap loop emits no flush. -/
theorem flushCount_unmapEvents (t : EGL_Texture) :
    flushCount (unmapEvents t) = 0 := by
  unfold flushCount unmapEvents
  rw [filterMap_evRange_nil]
  · rfl
  · intro p
    by_cases hm : (t.tex p).map <;> simp [hm]

/-- The binding loop destroys no fence. -/
theorem fenceDestroyCount_bindSlotEvents (pc slot : Nat) :
    fenceDestroyCount (bindSlotEvents pc slot) = 0 := by
  unfold fenceDestroyCount bindSlotEvents
  rw [filterMap_evRange_nil]
  · rfl
  · intro p
    rfl

/-- bindFinish adds no fence destruction to the trace it is given. -/
theorem fenceDestroyCount_bindFinish (t : EGL_Texture) (evs : List GLEvent) :
    fenceDestroyCount (bindFinish t evs).events = fenceDestroyCount evs := by
  unfold bindFinish
  by_cases hg : t.state.d ≠ t.state.s ∧ (t.state.d + 1) % 3 ≠ t.state.s
  · rw [if_pos hg]
    dsimp only
    rw [fenceDestroyCount_append, fenceDestroyCount_append,
      fenceDestroyCount_bindSlotEvents]
    rfl
  · rw [if_neg hg]
    dsimp only
    rw [fenceDestroyCount_append, fenceDestroyCount_bindSlotEvents]
    rfl

/-- With all three slots mapped, the unmap loop unmaps exactly slots 0, 1, 2
in order. -/
theorem unmapEvents_all_mapped (t : EGL_Texture)
    (h : ∀ i, i < 3 → (t.tex i).map = true) :
    unmapEvents t =
      [GLEvent.bindPBO 0, GLEvent.unmapSlot 0, GLEvent.bindPBO 1,
       GLEvent.unmapSlot 1, GLEvent.bindPBO 2, GLEvent.unmapSlot 2] := by
  have h0 := h 0 (by omega)
  have h1 := h 1 (by omega)
  have h2 := h 2 (by omega)
  unfold unmapEvents evRange
  rw [show List.range 3 = [0, 1, 2] from rfl]
  simp [h0, h1, h2]

/-- Trace of the upload branch of egl_texture_process. -/
theorem process_advance_events (t : EGL_Texture) (hstr : ¬ t.streaming = false)
    (hg : ¬ (t.state.u = t.state.w ∨ (t.state.u + 1) % 3 = t.state.s
        ∨ (t.state.u + 1) % 3 = t.state.d)) :
    (egl_texture_process t).events =
      unmapEvents t
        ++ [GLEvent.bindPBO t.state.u]
        ++ streamUploadEvents t t.state.u
        ++ [GLEvent.fenceCreate t.state.u, GLEvent.flush,
            GLEvent.storeU ((t.state.u + 1) % 3)]
        ++ mapEvents := by
  simp [egl_texture_process, hstr, hg]

/-- C3: every egl_texture_process call that advances u performs, in order,
the unmap of all three slots, the bind of the PBO of slot u, the per-plane
glTexSubImage2D uploads with row length planes[p][2] and offset offsets[p],
the creation of exactly one GPU_COMMANDS_COMPLETE fence for slot u, exactly
one flush, the release publish of u = (u+1) mod 3, and the remap of all
three slots; and every egl_texture_bind call that advances s destroys
exactly one fence. -/
theorem c3_process_upload_protocol :
    (∀ t : EGL_Texture,
      (∀ i, i < 3 → (t.tex i).map = true) →
      (egl_texture_process t).tex.state.u ≠ t.state.u →
      (egl_texture_process t).events =
        [GLEvent.bindPBO 0, GLEvent.unmapSlot 0, GLEvent.bindPBO 1,
         GLEvent.unmapSlot 1, GLEvent.bindPBO 2, GLEvent.unmapSlot 2]
          ++ [GLEvent.bindPBO t.state.u]
          ++ streamUploadEvents t t.state.u
          ++ [GLEvent.fenceCreate t.state.u, GLEvent.flush,
              GLEvent.storeU ((t.state.u + 1) % 3)]
          ++ mapEvents ∧
      fenceCreateCount (egl_texture_process t).events = 1 ∧
      flushCount (egl_texture_process t).events = 1) ∧
    (∀ (t : EGL_Texture) (r : GLWaitResult),
      (egl_texture_bind t r).tex.state.s ≠ t.state.s →
      fenceDestroyCount (egl_texture_bind t r).events = 1) := by
  constructor
  · intro t hmap hadv
    by_cases hstr : t.streaming = false
    · rw [process_noadvance t (Or.inl hstr)] at hadv
      exact absurd rfl hadv
    · by_cases hg : t.state.u = t.state.w ∨ (t.state.u + 1) % 3 = t.state.s
          ∨ (t.state.u + 1) % 3 = t.state.d
      · rw [process_noadvance t (Or.inr hg)] at hadv
        exact absurd rfl hadv
      · have hev := process_advance_events t hstr hg
        refine ⟨?_, ?_, ?_⟩
        · rw [hev, unmapEvents_all_mapped t hmap]
        · rw [hev]
          rw [fenceCreateCount_append, fenceCreateCount_append,
            fenceCreateCount_append, fenceCreateCount_append,
            fenceCreateCount_unmapEvents, fenceCreateCount_streamUpload]
          rfl
        · rw [hev]
          rw [flushCount_append, flushCount_append, flushCount_append,
            flushCount_append, flushCount_unmapEvents, flushCount_streamUpload]
          rfl
  · intro t r hadv
    by_cases h1 : t.streaming = true
    · by_cases h2 : t.ready = false
      · rw [bind_notready t r h1 h2] at hadv
        exact absurd rfl hadv
      · by_cases h3 : (t.tex t.state.s).sync = true
        · cases r with
          | ALREADY_SIGNALED =>
              rw [bind_signaled t _ h1 h2 h3 (Or.inl rfl)]
              rw [fenceDestroyCount_bindFinish]
              rfl
          | CONDITION_SATISFIED =>
              rw [bind_signaled t _ h1 h2 h3 (Or.inr rfl)]
              rw [fenceDestroyCount_bindFinish]
              rfl
          | TIMEOUT_EXPIRED =>
              rw [bind_timeout t h1 h2 h3] at hadv
              have hbs := ((bindFinish_char t
                [GLEvent.clientWaitSync t.state.s]).1).2.2.1
              rw [hbs] at hadv
              exact absurd rfl hadv
          | WAIT_FAILED =>
              rw [bind_waitfail t _ h1 h2 h3 (Or.inl rfl)] at hadv
              exact absurd rfl hadv
          | INVALID_VALUE =>
              rw [bind_waitfail t _ h1 h2 h3 (Or.inr rfl)] at hadv
              exact absurd rfl hadv
        · rw [bind_nosync t r h1 h2 h3] at hadv
          have hbs := ((bindFinish_char t []).1).2.2.1
          rw [hbs] at hadv
          exact absurd rfl hadv
    · rw [bind_nonstream t r h1] at hadv
      exact absurd rfl hadv

/-- Witness for C3: processing texBGRAw advances u with exactly one fence and
one flush, and the signaled bind on texBGRAu advances s destroying exactly one
fence. -/
theorem c3_witness :
    fenceCreateCount (egl_texture_process texBGRAw).events = 1 ∧
    flushCount (egl_texture_process texBGRAw).events = 1 ∧
    fenceDestroyCount
      (egl_texture_bind texBGRAu GLWaitResult.ALREADY_SIGNALED).events = 1 := by
  have h1 := c3_process_upload_protocol.1 texBGRAw ?_ ?_
  · exact ⟨h1.2.1, h1.2.2,
      c3_process_upload_protocol.2 texBGRAu GLWaitResult.ALREADY_SIGNALED
        (by decide)⟩
  · intro i hi
    interval_cases i <;> decide
  · decide

/-- bindFinish always reports OK. -/
theorem bindFinish_status (t : EGL_Texture) (evs : List GLEvent) :
    (bindFinish t evs).status = EGL_TexStatus.OK := by
  unfold bindFinish
  split <;> rfl

/-- bindFinish ends its trace by binding the display slot it returns. -/
theorem bindFinish_binds_result_d (t : EGL_Texture) (evs : List GLEvent) :
    ∃ pre, (bindFinish t evs).events =
      pre ++ bindSlotEvents t.planeCount ((bindFinish t evs).tex.state.d) := by
  unfold bindFinish
  by_cases hg : t.state.d ≠ t.state.s ∧ (t.state.d + 1) % 3 ≠ t.state.s
  · rw [if_pos hg]
    exact ⟨evs ++ [GLEvent.storeD ((t.state.d + 1) % 3)], rfl⟩
  · rw [if_neg hg]
    exact ⟨evs, rfl⟩

/-- C4: in streaming mode egl_texture_bind returns NOT_READY before the first
upload; with a pending fence on slot s it client-waits (20 ms in the source)
and, on ALREADY_SIGNALED or CONDITION_SATISFIED, deletes the fence, advances
s and reports OK; on TIMEOUT_EXPIRED it leaves s and every slot unchanged,
reports OK and still ends by binding the display slot it returns; on
WAIT_FAILED or INVALID_VALUE it deletes the fence and returns ERROR with no
index change and without binding anything. -/
theorem c4_bind_wait_results :
    ∀ (t : EGL_Texture) (r : GLWaitResult),
      t.streaming = true →
      ( (t.ready = false →
          egl_texture_bind t r =
            { tex := t, status := EGL_TexStatus.NOTREADY, events := [] }) ∧
        (¬ t.ready = false → (t.tex t.state.s).sync = true →
          ( ((r = GLWaitResult.ALREADY_SIGNALED
                ∨ r = GLWaitResult.CONDITION_SATISFIED) →
              ((egl_texture_bind t r).tex.tex t.state.s).sync = false ∧
              (egl_texture_bind t r).tex.state.s = (t.state.s + 1) % 3 ∧
              fenceDestroyCount (egl_texture_bind t r).events = 1 ∧
              (egl_texture_bind t r).status = EGL_TexStatus.OK) ∧
            (r = GLWaitResult.TIMEOUT_EXPIRED →
              (egl_texture_bind t r).tex.state.s = t.state.s ∧
              (egl_texture_bind t r).tex.tex = t.tex ∧
              (egl_texture_bind t r).status = EGL_TexStatus.OK ∧
              ∃ pre, (egl_texture_bind t r).events =
                pre ++ bindSlotEvents t.planeCount
                  ((egl_texture_bind t r).tex.state.d)) ∧
            ((r = GLWaitResult.WAIT_FAILED ∨ r = GLWaitResult.INVALID_VALUE) →
              (egl_texture_bind t r).status = EGL_TexStatus.ERROR ∧
              ((egl_texture_bind t r).tex.tex t.state.s).sync = false ∧
              (egl_texture_bind t r).tex.state = t.state ∧
              (egl_texture_bind t r).events =
                [GLEvent.clientWaitSync t.state.s,
                 GLEvent.fenceDestroy t.state.s]) ) ) ) := by
  intro t r hstr
  refine ⟨fun h2 => bind_notready t r hstr h2, ?_⟩
  intro h2 h3
  refine ⟨?_, ?_, ?_⟩
  · intro hr
    rw [bind_signaled t r hstr h2 h3 hr]
    refine ⟨?_, ?_, ?_, bindFinish_status _ _⟩
    · rw [((bindFinish_char _ _).1).2.2.2]
      dsimp only
      simp [Function.update]
    · rw [((bindFinish_char _ _).1).2.2.1]
    · rw [fenceDestroyCount_bindFinish]
      rfl
  · intro hr
    subst hr
    rw [bind_timeout t hstr h2 h3]
    exact ⟨((bindFinish_char _ _).1).2.2.1, ((bindFinish_char _ _).1).2.2.2,
      bindFinish_status _ _, bindFinish_binds_result_d _ _⟩
  · intro hr
    rw [bind_waitfail t r hstr h2 h3 hr]
    refine ⟨rfl, ?_, rfl, rfl⟩
    dsimp only
    simp [Function.update]

/-- Witness for C4: on texBGRAu a signaled wait advances s to 1, a timed-out
wait leaves s at 0, and a failed wait returns ERROR. -/
theorem c4_witness :
    (egl_texture_bind texBGRAu GLWaitResult.ALREADY_SIGNALED).tex.state.s = 1 ∧
    (egl_texture_bind texBGRAu GLWaitResult.TIMEOUT_EXPIRED).tex.state.s = 0 ∧
    (egl_texture_bind texBGRAu GLWaitResult.WAIT_FAILED).status
      = EGL_TexStatus.ERROR := by
  have hsig := ((c4_bind_wait_results texBGRAu GLWaitResult.ALREADY_SIGNALED
    (by decide)).2 (by decide) (by decide)).1 (Or.inl rfl)
  have htmo := ((c4_bind_wait_results texBGRAu GLWaitResult.TIMEOUT_EXPIRED
    (by decide)).2 (by decide) (by decide)).2.1 rfl
  have hfail := ((c4_bind_wait_results texBGRAu GLWaitResult.WAIT_FAILED
    (by decide)).2 (by decide) (by decide)).2.2 (Or.inl rfl)
  refine ⟨?_, ?_, hfail.1⟩
  · rw [hsig.2.1]
    decide
  · rw [htmo.1]
    decide

/-- C5 counterexample: for a YUV420 frame of width 3 and height 2 frameThread
derives dataSize 8 (height times width plus twice its integer quarter), while
the claimed formula height times width times 3 over 2 gives 9, so the claim
as stated fails on odd-sized frames. -/
theorem c5_counterexample :
    frameDataSize
        { type := FrameType.YUV420, width := 3, height := 2, stride := 3,
          pitch := 3 } = some (8, 12) ∧
      2 * 3 * 3 / 2 = 9 := by
  decide

/-- C5 (amended): frameThread derives dataSize as height times pitch (bpp 32)
for RGBA, BGRA and RGBA10, and for YUV420 as h w + 2 (h w / 4), which equals
h w 3 / 2 whenever 4 divides h w (in particular for even dimensions); for any
other frame type the iteration acknowledges the message with message_done and
breaks out of the frame loop regardless of the renderer outcome. -/
theorem c5_frame_datasize :
    ∀ (f : KVMFRFrame) (ok : Bool),
      ((f.type = FrameType.RGBA ∨ f.type = FrameType.BGRA
          ∨ f.type = FrameType.RGBA10) →
        frameDataSize f = some (f.height * f.pitch, 32)) ∧
      (f.type = FrameType.YUV420 →
        frameDataSize f
            = some (f.height * f.width + f.height * f.width / 4 * 2, 12) ∧
        (f.height * f.width % 4 = 0 →
          f.height * f.width + f.height * f.width / 4 * 2
            = f.height * f.width * 3 / 2)) ∧
      (∀ tag, f.type = FrameType.other tag →
        frameThreadBody f ok = FrameMsgStep.fatalUnsupported ∧
        (frameThreadBody f ok).acks = true ∧
        (frameThreadBody f ok).breaks = true) := by
  intro f ok
  refine ⟨?_, ?_, ?_⟩
  · intro h
    rcases h with h | h | h <;> simp [frameDataSize, h]
  · intro h
    refine ⟨by simp [frameDataSize, h], ?_⟩
    generalize f.height * f.width = n
    intro hn
    omega
  · intro tag h
    have : frameThreadBody f ok = FrameMsgStep.fatalUnsupported := by
      simp [frameThreadBody, frameDataSize, h]
    exact ⟨this, by rw [this]; rfl, by rw [this]; rfl⟩

/-- Witness for C5: the amended formulas evaluated on the spec scenario frame
and on an unsupported frame type. -/
theorem c5_witness :
    frameDataSize
        { type := FrameType.YUV420, width := 640, height := 480, stride := 640,
          pitch := 640 } = some (480 * 640 + 480 * 640 / 4 * 2, 12) ∧
    frameThreadBody
        { type := FrameType.other 99, width := 1, height := 1, stride := 1,
          pitch := 1 } true = FrameMsgStep.fatalUnsupported := by
  have h1 := ((c5_frame_datasize
    { type := FrameType.YUV420, width := 640, height := 480, stride := 640,
      pitch := 640 } true).2.1 rfl).1
  have h2 := ((c5_frame_datasize
    { type := FrameType.other 99, width := 1, height := 1, stride := 1,
      pitch := 1 } true).2.2 99 rfl).1
  exact ⟨h1, h2⟩

/-- C6: the YUV420 640 x 480 stride 640 scenario: egl_texture_setup computes
offsets 0, 307200 and 384000 and a PBO size of 460800; frameThread derives
dataSize 460800; and the process upload issues three glTexSubImage2D calls
with per-plane row lengths 640, 320 and 320. -/
theorem c6_yuv420_scenario :
    texYUV.offsets 0 = 0 ∧ texYUV.offsets 1 = 307200 ∧
    texYUV.offsets 2 = 384000 ∧
    texYUV.pboBufferSize = 460800 ∧
    frameDataSize
        { type := FrameType.YUV420, width := 640, height := 480, stride := 640,
          pitch := 640 } = some (460800, 12) ∧
    texSubCount (egl_texture_process texYUVw).events = 3 ∧
    rowLengths (egl_texture_process texYUVw).events = [640, 320, 320] := by
  decide

/-- C7: lgmpClientInit errors INVALID_SESSION and INVALID_MAGIC make lg_run
retry after a one second wait and every other init error terminates startup;
lgmpClientSubscribe error NO_SUCH_QUEUE makes frameThread retry after a one
millisecond sleep and every other subscribe error stops the client. -/
theorem c7_session_error_policy :
    lg_run_initStep LGMP_STATUS.OK = InitStep.proceed ∧
    lg_run_initStep LGMP_STATUS.ERR_INVALID_SESSION
      = InitStep.retryWaitMs 1000 ∧
    lg_run_initStep LGMP_STATUS.ERR_INVALID_MAGIC
      = InitStep.retryWaitMs 1000 ∧
    (∀ st : LGMP_STATUS, st ≠ LGMP_STATUS.OK →
      st ≠ LGMP_STATUS.ERR_INVALID_SESSION →
      st ≠ LGMP_STATUS.ERR_INVALID_MAGIC →
      lg_run_initStep st = InitStep.terminate) ∧
    frameThread_subscribeStep LGMP_STATUS.OK = SubscribeStep.subscribed ∧
    frameThread_subscribeStep LGMP_STATUS.ERR_NO_SUCH_QUEUE
      = SubscribeStep.retrySleepUs 1000 ∧
    (∀ st : LGMP_STATUS, st ≠ LGMP_STATUS.OK →
      st ≠ LGMP_STATUS.ERR_NO_SUCH_QUEUE →
      frameThread_subscribeStep st = SubscribeStep.stopRunning) := by
  refine ⟨rfl, rfl, rfl, ?_, rfl, rfl, ?_⟩
  · intro st h1 h2 h3
    cases st with
    | OK => exact absurd rfl h1
    | ERR_INVALID_SESSION => exact absurd rfl h2
    | ERR_INVALID_MAGIC => exact absurd rfl h3
    | ERR_NO_SUCH_QUEUE => rfl
    | ERR_QUEUE_EMPTY => rfl
    | other tag => rfl
  · intro st h1 h2
    cases st with
    | OK => exact absurd rfl h1
    | ERR_NO_SUCH_QUEUE => exact absurd rfl h2
    | ERR_INVALID_SESSION => rfl
    | ERR_INVALID_MAGIC => rfl
    | ERR_QUEUE_EMPTY => rfl
    | other tag => rfl

/-- Witness for C7: a status outside the retry sets terminates init and stops
the subscriber. -/
theorem c7_witness :
    lg_run_initStep (LGMP_STATUS.other 0) = InitStep.terminate ∧
    frameThread_subscribeStep LGMP_STATUS.ERR_QUEUE_EMPTY
      = SubscribeStep.stopRunning := by
  have h := c7_session_error_policy
  exact ⟨h.2.2.2.1 (LGMP_STATUS.other 0) (by decide) (by decide) (by decide),
    h.2.2.2.2.2.2 LGMP_STATUS.ERR_QUEUE_EMPTY (by decide) (by decide)⟩

/-- The unmap loop sets no row length. -/
theorem rowLengths_unmapEvents (t : EGL_Texture) :
    rowLengths (unmapEvents t) = [] := by
  unfold rowLengths unmapEvents
  rw [filterMap_evRange_nil]
  intro p
  by_cases hm : (t.tex p).map <;> simp [hm]

/-- Row lengths set by the streaming upload loop: planes[p][2] per plane. -/
theorem rowLengths_streamUpload (t : EGL_Texture) (slot : Nat) :
    rowLengths (streamUploadEvents t slot)
      = (List.range t.planeCount).map (fun p => (t.planes p).2.2) := by
  unfold streamUploadEvents
  exact rowLengths_evRange _ _ _ (fun p => rfl)

/-- Row lengths set by the non-streaming upload loop: planes[p][0] per
plane. -/
theorem rowLengths_nonStreamUpload (t : EGL_Texture) :
    rowLengths (nonStreamUploadEvents t)
      = (List.range t.planeCount).map (fun p => (t.planes p).1) := by
  unfold nonStreamUploadEvents
  exact rowLengths_evRange _ _ _ (fun p => rfl)

/-- C8: with streaming false only slot 0 is used: egl_texture_update bypasses
the PBO and uploads directly with GL_UNPACK_ROW_LENGTH planes[p][0], changing
no state; egl_texture_process is a no-op returning OK; egl_texture_bind (whose
display index is 0 in this mode) binds slot 0 with no fence logic; by
contrast the streaming upload of process sets row length planes[p][2]. -/
theorem c8_nonstreaming_mode :
    (∀ (t : EGL_Texture) (buf : List Nat) (wd : Bool) (r : GLWaitResult),
      t.streaming = false →
      egl_texture_update t buf wd =
        { tex := t, warnDone := wd, ret := true,
          events := nonStreamUploadEvents t } ∧
      rowLengths (nonStreamUploadEvents t)
        = (List.range t.planeCount).map (fun p => (t.planes p).1) ∧
      egl_texture_process t =
        { tex := t, status := EGL_TexStatus.OK, events := [] } ∧
      (t.state.d = 0 →
        egl_texture_bind t r =
          { tex := t, status := EGL_TexStatus.OK,
            events := bindSlotEvents t.planeCount 0 })) ∧
    (∀ t : EGL_Texture, t.streaming = true →
      (egl_texture_process t).tex.state.u ≠ t.state.u →
      rowLengths (egl_texture_process t).events
        = (List.range t.planeCount).map (fun p => (t.planes p).2.2)) := by
  constructor
  · intro t buf wd r h
    have hne : ¬ t.streaming = true := by
      rw [h]
      simp
    refine ⟨by simp [egl_texture_update, hne], rowLengths_nonStreamUpload t,
      by simp [egl_texture_process, h], ?_⟩
    intro hd
    rw [bind_nonstream t r hne, hd]
  · intro t hstr hadv
    have hstr2 : ¬ t.streaming = false := by
      rw [hstr]
      simp
    by_cases hg : t.state.u = t.state.w ∨ (t.state.u + 1) % 3 = t.state.s
        ∨ (t.state.u + 1) % 3 = t.state.d
    · rw [process_noadvance t (Or.inr hg)] at hadv
      exact absurd rfl hadv
    · rw [process_advance_events t hstr2 hg]
      rw [rowLengths_append, rowLengths_append, rowLengths_append,
        rowLengths_append, rowLengths_unmapEvents, rowLengths_streamUpload]
      rw [show rowLengths [GLEvent.bindPBO t.state.u] = [] from rfl]
      rw [show rowLengths [GLEvent.fenceCreate t.state.u, GLEvent.flush,
        GLEvent.storeU ((t.state.u + 1) % 3)] = [] from rfl]
      rw [show rowLengths mapEvents = [] from rfl]
      simp

/-- Witness for C8: the non-streaming texNS and the advancing process on
texBGRAw. -/
theorem c8_witness :
    egl_texture_process texNS =
      { tex := texNS, status := EGL_TexStatus.OK, events := [] } ∧
    egl_texture_bind texNS GLWaitResult.TIMEOUT_EXPIRED =
      { tex := texNS, status := EGL_TexStatus.OK,
        events := bindSlotEvents texNS.planeCount 0 } ∧
    rowLengths (egl_texture_process texBGRAw).events
      = (List.range texBGRAw.planeCount).map
          (fun p => (texBGRAw.planes p).2.2) := by
  have h1 := c8_nonstreaming_mode.1 texNS [] false GLWaitResult.TIMEOUT_EXPIRED
    (by decide)
  have h2 := c8_nonstreaming_mode.2 texBGRAw (by decide) (by decide)
  exact ⟨h1.2.2.1, h1.2.2.2 (by decide), h2⟩

/-- reallocOccurred distributes over trace concatenation. -/
theorem reallocOccurred_append (a b : List GLEvent) :
    reallocOccurred (a ++ b) = (reallocOccurred a || reallocOccurred b) := by
  simp [reallocOccurred, List.any_append]

/-- A loop none of whose bodies reallocates never reallocates. -/
theorem reallocOccurred_evRange (n : Nat) (f : Nat → List GLEvent)
    (h : ∀ p, reallocOccurred (f p) = false) :
    reallocOccurred (evRange n f) = false := by
  induction n with
  | zero => rfl
  | succ m ih =>
      rw [evRange_succ, reallocOccurred_append, ih, h m]
      rfl

/-- C9: the plane count is monotonically non-decreasing across
egl_texture_setup calls: setup keeps the larger of the stored and the new
plane count, reallocates samplers and textures exactly when the new count
exceeds the stored one, and after YUV420 then BGRA egl_texture_count still
returns 3. -/
theorem c9_planecount_monotone :
    (∀ (t : EGL_Texture) (fmt : EGL_PixelFormat) (w h st : Nat) (str : Bool),
      t.planeCount ≤ ((egl_texture_setup t fmt w h st str).1).planeCount ∧
      ((egl_texture_setup t fmt w h st str).1).planeCount
        = (if t.planeCount < planeCountOfFormat fmt then planeCountOfFormat fmt
           else t.planeCount) ∧
      (reallocOccurred ((egl_texture_setup t fmt w h st str).2) = true
        ↔ t.planeCount < planeCountOfFormat fmt)) ∧
    egl_texture_count
      ((egl_texture_setup texYUV EGL_PixelFormat.BGRA 640 480 2560 true).1)
      = 3 := by
  refine ⟨?_, by decide⟩
  intro t fmt w h st str
  have hpc : ((egl_texture_setup t fmt w h st str).1).planeCount
      = (if t.planeCount < planeCountOfFormat fmt then planeCountOfFormat fmt
         else t.planeCount) := rfl
  refine ⟨?_, hpc, ?_⟩
  · rw [hpc]
    by_cases hlt : t.planeCount < planeCountOfFormat fmt
    · rw [if_pos hlt]
      omega
    · rw [if_neg hlt]
  · have hev : (egl_texture_setup t fmt w h st str).2
        = (if t.planeCount < planeCountOfFormat fmt
            then [GLEvent.reallocPlanes (planeCountOfFormat fmt)] else [])
          ++ evRange (if str then 3 else 1)
              (fun i => evRange (planeCountOfFormat fmt)
                (fun p => [GLEvent.texImage2D i p]))
          ++ unmapEvents t ++ mapEvents := rfl
    have e1 : reallocOccurred (evRange (if str then 3 else 1)
        (fun i => evRange (planeCountOfFormat fmt)
          (fun p => [GLEvent.texImage2D i p]))) = false := by
      apply reallocOccurred_evRange
      intro i
      apply reallocOccurred_evRange
      intro p
      rfl
    have e2 : reallocOccurred (unmapEvents t) = false := by
      unfold unmapEvents
      apply reallocOccurred_evRange
      intro p
      by_cases hm : (t.tex p).map <;> simp [hm, reallocOccurred]
    have e3 : reallocOccurred mapEvents = false := by decide
    rw [hev, reallocOccurred_append, reallocOccurred_append,
      reallocOccurred_append, e1, e2, e3]
    by_cases hlt : t.planeCount < planeCountOfFormat fmt
    · rw [if_pos hlt]
      simp [reallocOccurred, hlt]
    · rw [if_neg hlt]
      simp [reallocOccurred, hlt]

/-- C10: egl_texture_update_from_frame on a non-streaming texture returns
false immediately, reading nothing, writing no slot and leaving the texture -
state word included - untouched, while egl_texture_update does support a
non-streaming path and returns true. -/
theorem c10_update_from_frame_needs_streaming :
    ∀ (t : EGL_Texture) (fb : FrameBuffer) (buf : List Nat) (wd : Bool),
      t.streaming = false →
      egl_texture_update_from_frame t fb wd =
        { tex := t, warnDone := wd, ret := false, events := [] } ∧
      (egl_texture_update t buf wd).ret = true := by
  intro t fb buf wd h
  have hne : ¬ t.streaming = true := by
    rw [h]
    simp
  exact ⟨by simp [egl_texture_update_from_frame, h],
    by simp [egl_texture_update, hne]⟩

/-- Witness for C10: the non-streaming texture texNS. -/
theorem c10_witness :
    egl_texture_update_from_frame texNS ⟨[]⟩ false =
      { tex := texNS, warnDone := false, ret := false, events := [] } ∧
    (egl_texture_update texNS [] false).ret = true :=
  c10_update_from_frame_needs_streaming texNS ⟨[]⟩ [] false (by decide)

end LookingGlass
